import Mathlib

/-!
Verification development for a single-file media-analysis application
(`app.py`). The page script has three tabs (video analysis, image
analysis, text summarization). Each button handler validates its input,
stages media through a remote file service, polls the returned handle
while its state is `"PROCESSING"`, assembles a prompt by string
interpolation, calls a model agent, renders the answer, and removes the
scratch file in a `finally` block.

The embedding below is a shallow one: the external collaborators
(`upload_file`, `get_file`, `multimodal_Agent.run`) are oracle inputs of
type `Except String _` (`Except.error` models a raised exception), side
effects are recorded in an explicit trace, the filesystem is a list of
existing paths, and the unbounded `while` polling loop is indexed by fuel
so that non-termination is observable as the `none` outcome.
-/

namespace Vision

/-- One character of Python whitespace as recognised by `str.strip()`
(ASCII range: space, tab, newline, carriage return, vertical tab, form feed). -/
def pyIsSpace (c : Char) : Bool :=
  c = ' ' || c = '\t' || c = '\n' || c = '\r' || c = '\x0b' || c = '\x0c'

/-- Python's `str.strip()`: drop leading and trailing whitespace. -/
def pyStrip (s : String) : String :=
  ⟨((s.data.dropWhile pyIsSpace).reverse.dropWhile pyIsSpace).reverse⟩

/-- A remote file handle as used by the page: the code reads `handle.name`
and compares `handle.state.name` against the string `"PROCESSING"`. -/
structure FileHandle where
  name : String
  stateName : String
deriving DecidableEq

/-- Observable side effects of one run of a tab's script, in order. -/
inductive Effect where
  | warning (msg : String)
  | info (msg : String)
  | uploadFileCall (path : String)
  | sleep (secs : Nat)
  | getFileCall (name : String)
  | runCall (prompt : String)
  | subheader (title : String)
  | renderMarkdown (content : String)
  | errorMsg (msg : String)
  | unlink (path : String)
deriving DecidableEq

/-- `Path(p).unlink(missing_ok=True)` on a filesystem modelled as the list
of existing paths: erasing an absent path is a no-op and raises nothing. -/
def unlinkMissingOk (fs : List String) (p : String) : List String :=
  fs.erase p

/-- An effect that reaches the network: the staging service
(`upload_file` / `get_file`) or the model agent (`run`). -/
def isNetworkEffect : Effect → Bool
  | Effect.uploadFileCall _ => true
  | Effect.getFileCall _ => true
  | Effect.runCall _ => true
  | _ => false

/-- Strict UTF-8 decoding of a byte sequence into code points, modelling
Python's `bytes.decode("utf-8")` called on the uploaded text file
(RFC 3629: rejects stray continuation bytes, overlong encodings,
surrogates, code points above U+10FFFF, and truncated sequences). -/
def utf8DecodeBytes : List Nat → Option (List Nat)
  | [] => some []
  | b0 :: rest =>
    if b0 ≤ 0x7f then
      (utf8DecodeBytes rest).map (fun cs => b0 :: cs)
    else if 0xc2 ≤ b0 ∧ b0 ≤ 0xdf then
      match rest with
      | b1 :: rest1 =>
        if 0x80 ≤ b1 ∧ b1 ≤ 0xbf then
          (utf8DecodeBytes rest1).map (fun cs => ((b0 - 0xc0) * 0x40 + (b1 - 0x80)) :: cs)
        else none
      | [] => none
    else if 0xe0 ≤ b0 ∧ b0 ≤ 0xef then
      match rest with
      | b1 :: b2 :: rest2 =>
        if (if b0 = 0xe0 then 0xa0 ≤ b1 ∧ b1 ≤ 0xbf
            else if b0 = 0xed then 0x80 ≤ b1 ∧ b1 ≤ 0x9f
            else 0x80 ≤ b1 ∧ b1 ≤ 0xbf) ∧ 0x80 ≤ b2 ∧ b2 ≤ 0xbf then
          (utf8DecodeBytes rest2).map
            (fun cs => ((b0 - 0xe0) * 0x1000 + (b1 - 0x80) * 0x40 + (b2 - 0x80)) :: cs)
        else none
      | _ => none
    else if 0xf0 ≤ b0 ∧ b0 ≤ 0xf4 then
      match rest with
      | b1 :: b2 :: b3 :: rest3 =>
        if (if b0 = 0xf0 then 0x90 ≤ b1 ∧ b1 ≤ 0xbf
            else if b0 = 0xf4 then 0x80 ≤ b1 ∧ b1 ≤ 0x8f
            else 0x80 ≤ b1 ∧ b1 ≤ 0xbf) ∧ (0x80 ≤ b2 ∧ b2 ≤ 0xbf) ∧
            0x80 ≤ b3 ∧ b3 ≤ 0xbf then
          (utf8DecodeBytes rest3).map
            (fun cs => ((b0 - 0xf0) * 0x40000 + (b1 - 0x80) * 0x1000 +
              (b2 - 0x80) * 0x40 + (b3 - 0x80)) :: cs)
        else none
      | _ => none
    else none

/-- `text_file.read().decode("utf-8")`: decode bytes to a string or raise. -/
def utf8Decode (bs : List Nat) : Except String String :=
  match utf8DecodeBytes bs with
  | some cps => Except.ok ⟨cps.map Char.ofNat⟩
  | none => Except.error "UnicodeDecodeError"

/-- 28 spaces: the indentation inside the video/image prompt f-strings. -/
def sp28 : String := ⟨List.replicate 28 ' '⟩

/-- 24 spaces: the indentation inside the summarization prompt f-string. -/
def sp24 : String := ⟨List.replicate 24 ' '⟩

/-- The video prompt template text before `{user_query}`. -/
def videoPromptPre : String :=
  "\n" ++ sp28 ++ "Analyze the uploaded video for content and context.\n" ++ sp28 ++
  "Respond to the following query using video insights and supplementary web research:\n" ++ sp28

/-- The image prompt template text before `{user_query}`. -/
def imagePromptPre : String :=
  "\n" ++ sp28 ++ "Analyze the uploaded image for content and context.\n" ++ sp28 ++
  "Perform OCR if text is present or describe the image otherwise.\n" ++ sp28 ++
  "Respond to the following query using image insights:\n" ++ sp28

/-- The template text after `{user_query}` in both media prompts. -/
def mediaPromptPost : String :=
  "\n\n" ++ sp28 ++ "Provide a detailed, user-friendly, and actionable response.\n" ++ sp28

/-- `analysis_prompt` of the video tab: the f-string of the source
interpolating `user_query`. -/
def analysis_prompt_video (user_query : String) : String :=
  videoPromptPre ++ user_query ++ mediaPromptPost

/-- `analysis_prompt` of the image tab. -/
def analysis_prompt_image (user_query : String) : String :=
  imagePromptPre ++ user_query ++ mediaPromptPost

/-- The summarization template text before the interpolated instructions. -/
def summaryPromptPre : String :=
  "\n" ++ sp24 ++
  "Summarize the following text in a concise, clear, and user-friendly manner.\n" ++ sp24

/-- The summarization template text between the instructions and the body
(including the whitespace-only line of the source f-string). -/
def summaryPromptMid : String :=
  "\n" ++ sp24 ++ "\n" ++ sp24 ++ "Text to summarize:\n" ++ sp24

/-- The summarization template text after `{text_content}`. -/
def summaryPromptPost : String := "\n" ++ sp24

/-- `summary_prompt` of the text tab: the f-string interpolates
`summary_prompt_input if summary_prompt_input.strip() else ""` and then
`text_content`. -/
def summary_prompt (summary_prompt_input text_content : String) : String :=
  summaryPromptPre ++ (if pyStrip summary_prompt_input = "" then "" else summary_prompt_input) ++
    summaryPromptMid ++ text_content ++ summaryPromptPost

/-- The polling loop
`while processed.state.name == "PROCESSING": time.sleep(1); processed = get_file(processed.name)`.
`polls i` is the outcome of the `(i+1)`-th `get_file` call (`Except.error`
models a raised exception). The source imposes no bound, so the loop is
indexed by fuel: returns the effect trace of the iterations performed,
plus `some` final outcome, or `none` when the loop is still running after
`fuel` iterations. -/
def pollLoop (polls : Nat → Except String FileHandle) :
    Nat → Nat → FileHandle → List Effect × Option (Except String FileHandle)
  | fuel, i, h =>
    if h.stateName = "PROCESSING" then
      match fuel with
      | 0 => ([], none)
      | fuel' + 1 =>
        match polls i with
        | Except.error e =>
          ([Effect.sleep 1, Effect.getFileCall h.name], some (Except.error e))
        | Except.ok h' =>
          let r := pollLoop polls fuel' (i + 1) h'
          (Effect.sleep 1 :: Effect.getFileCall h.name :: r.1, r.2)
    else ([], some (Except.ok h))

/-- Inputs of one run of the video or image tab script: the uploaded media
bytes (`none` when no file is chosen), the query text, whether the button
was pressed on this rerun, and the three external oracles. -/
structure MediaEnv where
  mediaFile : Option (List Nat)
  user_query : String
  buttonPressed : Bool
  upload_file : Except String FileHandle
  get_file : Nat → Except String FileHandle
  agentRun : String → FileHandle → Except String String

/-- Result of a tab script run: the effect trace, the final filesystem,
and whether the script reached its end (`false` exactly when the polling
loop was still running when the fuel ran out). -/
structure TabResult where
  effects : List Effect
  fs : List String
  completed : Bool
deriving DecidableEq

/-- The video tab script (lines 49-103 of the source). When a file is
uploaded, the scratch file `video_path` is written at render time; the
button handler then warns on an empty query, or runs the
try/except/finally: stage, poll, build `analysis_prompt`, call the agent,
render, and always unlink the scratch file. -/
def videoTab (env : MediaEnv) (video_path : String) (fs0 : List String) (fuel : Nat) :
    TabResult :=
  match env.mediaFile with
  | none => { effects := [Effect.info "Upload a video file to begin analysis."],
              fs := fs0, completed := true }
  | some _ =>
    let fs1 := video_path :: fs0
    if env.buttonPressed then
      if env.user_query = "" then
        { effects := [Effect.warning "Please enter a question or insight to analyze the video."],
          fs := fs1, completed := true }
      else
        match env.upload_file with
        | Except.error e =>
          { effects := [Effect.uploadFileCall video_path,
              Effect.errorMsg ("An error occurred during analysis: " ++ e),
              Effect.unlink video_path],
            fs := unlinkMissingOk fs1 video_path, completed := true }
        | Except.ok processed_video =>
          match pollLoop env.get_file fuel 0 processed_video with
          | (pollEffs, none) =>
            { effects := Effect.uploadFileCall video_path :: pollEffs,
              fs := fs1, completed := false }
          | (pollEffs, some (Except.error e)) =>
            { effects := Effect.uploadFileCall video_path :: pollEffs ++
                [Effect.errorMsg ("An error occurred during analysis: " ++ e),
                 Effect.unlink video_path],
              fs := unlinkMissingOk fs1 video_path, completed := true }
          | (pollEffs, some (Except.ok processed)) =>
            let analysis_prompt := analysis_prompt_video env.user_query
            match env.agentRun analysis_prompt processed with
            | Except.error e =>
              { effects := Effect.uploadFileCall video_path :: pollEffs ++
                  [Effect.runCall analysis_prompt,
                   Effect.errorMsg ("An error occurred during analysis: " ++ e),
                   Effect.unlink video_path],
                fs := unlinkMissingOk fs1 video_path, completed := true }
            | Except.ok content =>
              { effects := Effect.uploadFileCall video_path :: pollEffs ++
                  [Effect.runCall analysis_prompt,
                   Effect.subheader "Analysis Result",
                   Effect.renderMarkdown content,
                   Effect.unlink video_path],
                fs := unlinkMissingOk fs1 video_path, completed := true }
    else { effects := [], fs := fs1, completed := true }

/-- The image tab script (lines 106-161 of the source); identical shape to
the video tab with the image prompt, `.png` scratch file and image texts. -/
def imageTab (env : MediaEnv) (image_path : String) (fs0 : List String) (fuel : Nat) :
    TabResult :=
  match env.mediaFile with
  | none => { effects := [Effect.info "Upload an image file to begin analysis."],
              fs := fs0, completed := true }
  | some _ =>
    let fs1 := image_path :: fs0
    if env.buttonPressed then
      if env.user_query = "" then
        { effects := [Effect.warning "Please enter a question or insight to analyze the image."],
          fs := fs1, completed := true }
      else
        match env.upload_file with
        | Except.error e =>
          { effects := [Effect.uploadFileCall image_path,
              Effect.errorMsg ("An error occurred during analysis: " ++ e),
              Effect.unlink image_path],
            fs := unlinkMissingOk fs1 image_path, completed := true }
        | Except.ok processed_image =>
          match pollLoop env.get_file fuel 0 processed_image with
          | (pollEffs, none) =>
            { effects := Effect.uploadFileCall image_path :: pollEffs,
              fs := fs1, completed := false }
          | (pollEffs, some (Except.error e)) =>
            { effects := Effect.uploadFileCall image_path :: pollEffs ++
                [Effect.errorMsg ("An error occurred during analysis: " ++ e),
                 Effect.unlink image_path],
              fs := unlinkMissingOk fs1 image_path, completed := true }
          | (pollEffs, some (Except.ok processed)) =>
            let analysis_prompt := analysis_prompt_image env.user_query
            match env.agentRun analysis_prompt processed with
            | Except.error e =>
              { effects := Effect.uploadFileCall image_path :: pollEffs ++
                  [Effect.runCall analysis_prompt,
                   Effect.errorMsg ("An error occurred during analysis: " ++ e),
                   Effect.unlink image_path],
                fs := unlinkMissingOk fs1 image_path, completed := true }
            | Except.ok content =>
              { effects := Effect.uploadFileCall image_path :: pollEffs ++
                  [Effect.runCall analysis_prompt,
                   Effect.subheader "Analysis Result",
                   Effect.renderMarkdown content,
                   Effect.unlink image_path],
                fs := unlinkMissingOk fs1 image_path, completed := true }
    else { effects := [], fs := fs1, completed := true }

/-- Inputs of one run of the text tab script: the typed text, the uploaded
text file's raw bytes (`none` when absent), the custom instructions, the
button state, and the model oracle. -/
structure TextEnv where
  text_input : String
  text_file : Option (List Nat)
  summary_prompt_input : String
  buttonPressed : Bool
  agentRun : String → Except String String

/-- Result of the text tab's button handler (it touches no scratch file). -/
structure TextTabResult where
  effects : List Effect
deriving DecidableEq

/-- The text tab's button handler (lines 194-219), given the already
resolved `text_content`: warn if it is blank after `strip()`, otherwise
build `summary_prompt`, call the agent inside try/except and render. -/
def textTabBody (text_content : String) (env : TextEnv) : TextTabResult :=
  if env.buttonPressed then
    if pyStrip text_content = "" then
      { effects := [Effect.warning "Please provide some text or upload a file to summarize."] }
    else
      let sp := summary_prompt env.summary_prompt_input text_content
      match env.agentRun sp with
      | Except.error e =>
        { effects := [Effect.runCall sp,
            Effect.errorMsg ("An error occurred during summarization: " ++ e)] }
      | Except.ok content =>
        { effects := [Effect.runCall sp,
            Effect.subheader "Summary Result",
            Effect.renderMarkdown content] }
  else { effects := [] }

/-- The text tab script (lines 164-219). When a file is uploaded its bytes
are decoded as UTF-8 at render time, before the button handler and outside
any try/except: a decode failure is an uncaught exception, modelled as the
`Except.error` outcome of the whole script run. Otherwise the typed text
is used and the button handler runs. -/
def textTab (env : TextEnv) : Except String TextTabResult :=
  match env.text_file with
  | some bs =>
    match utf8Decode bs with
    | Except.error e => Except.error e
    | Except.ok s => Except.ok (textTabBody s env)
  | none => Except.ok (textTabBody env.text_input env)

/-- A remote handle still being processed by the staging service. -/
def stubHandleProcessing : FileHandle := { name := "files/x", stateName := "PROCESSING" }

/-- A remote handle in the terminal `"ACTIVE"` state. -/
def stubHandleActive : FileHandle := { name := "files/x", stateName := "ACTIVE" }

/-- A remote handle in the terminal `"FAILED"` state. -/
def stubHandleFailed : FileHandle := { name := "files/x", stateName := "FAILED" }

/-- A staging stub whose first `get_file` answer is still `"PROCESSING"`
and whose second answer is `"ACTIVE"`. -/
def twoPollStub : Nat → Except String FileHandle := fun i =>
  if i = 0 then Except.ok stubHandleProcessing else Except.ok stubHandleActive

/-- A concrete media-tab environment: a 1-byte upload, a non-empty query,
the button pressed, immediate `"ACTIVE"` staging and a model stub. -/
def baseMediaEnv : MediaEnv :=
  { mediaFile := some [0], user_query := "What is shown?", buttonPressed := true,
    upload_file := Except.ok stubHandleActive,
    get_file := fun _ => Except.ok stubHandleActive,
    agentRun := fun _ _ => Except.ok "A red circle." }

/-- A concrete media-tab environment whose staging reports one round of
processing, then a handle in the `"FAILED"` state, and whose model call
raises. -/
def failedPollEnv : MediaEnv :=
  { mediaFile := some [0], user_query := "What is shown?", buttonPressed := true,
    upload_file := Except.ok stubHandleProcessing,
    get_file := fun _ => Except.ok stubHandleFailed,
    agentRun := fun _ _ => Except.error "file failed" }

/-- A concrete text-tab environment: typed text only, button pressed. -/
def baseTextEnv : TextEnv :=
  { text_input := "typed text", text_file := none, summary_prompt_input := "",
    buttonPressed := true, agentRun := fun _ => Except.ok "summary text" }

/-- Number of `get_file` calls recorded in an effect trace. -/
def countGetFile : List Effect → Nat
  | [] => 0
  | Effect.getFileCall _ :: es => countGetFile es + 1
  | _ :: es => countGetFile es

/-- Number of `time.sleep` calls recorded in an effect trace. -/
def countSleep : List Effect → Nat
  | [] => 0
  | Effect.sleep _ :: es => countSleep es + 1
  | _ :: es => countSleep es

theorem pollLoop_not_processing (polls : Nat → Except String FileHandle) (fuel i : Nat)
    (h : FileHandle) (hp : h.stateName ≠ "PROCESSING") :
    pollLoop polls fuel i h = ([], some (Except.ok h)) := by
  cases fuel <;> simp [pollLoop, hp]

theorem pollLoop_ok_terminal (polls : Nat → Except String FileHandle) :
    ∀ (fuel i : Nat) (h h' : FileHandle),
      (pollLoop polls fuel i h).2 = some (Except.ok h') → h'.stateName ≠ "PROCESSING" := by
  intro fuel
  induction fuel with
  | zero =>
    intro i h h' hres
    by_cases hp : h.stateName = "PROCESSING"
    · simp [pollLoop, hp] at hres
    · simp [pollLoop, hp] at hres
      rw [← hres]
      exact hp
  | succ n ih =>
    intro i h h' hres
    by_cases hp : h.stateName = "PROCESSING"
    · rcases hpi : polls i with e | h2
      · simp [pollLoop, hp, hpi] at hres
      · simp only [pollLoop, hp, if_true, hpi] at hres
        exact ih (i + 1) h2 h' hres
    · simp [pollLoop, hp] at hres
      rw [← hres]
      exact hp

theorem pollLoop_no_warning (polls : Nat → Except String FileHandle) :
    ∀ (fuel i : Nat) (h : FileHandle) (m : String),
      Effect.warning m ∉ (pollLoop polls fuel i h).1 := by
  intro fuel
  induction fuel with
  | zero =>
    intro i h m
    by_cases hp : h.stateName = "PROCESSING" <;> simp [pollLoop, hp]
  | succ n ih =>
    intro i h m
    by_cases hp : h.stateName = "PROCESSING"
    · rcases hpi : polls i with e | h2
      · simp [pollLoop, hp, hpi]
      · simp [pollLoop, hp, hpi]
        exact ih (i + 1) h2 m
    · simp [pollLoop, hp]

theorem pollLoop_sleep_one (polls : Nat → Except String FileHandle) :
    ∀ (fuel i : Nat) (h : FileHandle) (s : Nat),
      Effect.sleep s ∈ (pollLoop polls fuel i h).1 → s = 1 := by
  intro fuel
  induction fuel with
  | zero =>
    intro i h s hmem
    by_cases hp : h.stateName = "PROCESSING" <;> simp [pollLoop, hp] at hmem
  | succ n ih =>
    intro i h s hmem
    by_cases hp : h.stateName = "PROCESSING"
    · rcases hpi : polls i with e | h2
      · simp [pollLoop, hp, hpi] at hmem
        exact hmem
      · simp [pollLoop, hp, hpi] at hmem
        rcases hmem with h1 | h2'
        · exact h1
        · exact ih (i + 1) h2 s h2'
    · simp [pollLoop, hp] at hmem

theorem pollLoop_counts (polls : Nat → Except String FileHandle) :
    ∀ (fuel i : Nat) (h : FileHandle),
      countSleep (pollLoop polls fuel i h).1 = countGetFile (pollLoop polls fuel i h).1 := by
  intro fuel
  induction fuel with
  | zero =>
    intro i h
    by_cases hp : h.stateName = "PROCESSING" <;> simp [pollLoop, hp, countSleep, countGetFile]
  | succ n ih =>
    intro i h
    by_cases hp : h.stateName = "PROCESSING"
    · rcases hpi : polls i with e | h2
      · simp [pollLoop, hp, hpi, countSleep, countGetFile]
      · simp [pollLoop, hp, hpi, countSleep, countGetFile]
        exact ih (i + 1) h2
    · simp [pollLoop, hp, countSleep, countGetFile]

theorem pollLoop_stuck (polls : Nat → Except String FileHandle) (h : FileHandle)
    (hp : h.stateName = "PROCESSING") (hall : ∀ j, polls j = Except.ok h) :
    ∀ (n i : Nat),
      (pollLoop polls n i h).2 = none ∧ countGetFile (pollLoop polls n i h).1 = n := by
  intro n
  induction n with
  | zero =>
    intro i
    simp [pollLoop, hp, countGetFile]
  | succ m ih =>
    intro i
    have hi := hall i
    simp [pollLoop, hp, hi, countSleep, countGetFile]
    exact ⟨(ih (i + 1)).1, (ih (i + 1)).2⟩

theorem pyStrip_eq_empty_of_all_space (q : String) (hq : q.data.all pyIsSpace = true) :
    pyStrip q = "" := by
  have h1 : q.data.dropWhile pyIsSpace = [] := by
    rw [List.dropWhile_eq_nil_iff]
    intro x hx
    exact List.all_eq_true.mp hq x hx
  simp [pyStrip, h1]

/-- C2: for every empty query string, pressing Analyze Video or Analyze
Image produces the user-visible warning and performs no network activity:
the effect trace is exactly the warning, so neither the staging service
(`upload_file`/`get_file`) nor the model agent (`run`) is called. -/
theorem C2_empty_query_warns_no_network (env : MediaEnv) (p : String) (fs0 : List String)
    (fuel : Nat) (hfile : env.mediaFile.isSome = true) (hbtn : env.buttonPressed = true)
    (hq : env.user_query = "") :
    (videoTab env p fs0 fuel).effects =
      [Effect.warning "Please enter a question or insight to analyze the video."] ∧
    (∀ e ∈ (videoTab env p fs0 fuel).effects, isNetworkEffect e = false) ∧
    (imageTab env p fs0 fuel).effects =
      [Effect.warning "Please enter a question or insight to analyze the image."] ∧
    (∀ e ∈ (imageTab env p fs0 fuel).effects, isNetworkEffect e = false) := by
  obtain ⟨bs, hbs⟩ := Option.isSome_iff_exists.mp hfile
  simp [videoTab, imageTab, hbs, hbtn, hq, isNetworkEffect]

/-- Witness for C2 at a concrete environment with an empty query. -/
theorem C2_witness :
    (videoTab { baseMediaEnv with user_query := "" } "/tmp/v.mp4" [] 3).effects =
      [Effect.warning "Please enter a question or insight to analyze the video."] ∧
    (∀ e ∈ (videoTab { baseMediaEnv with user_query := "" } "/tmp/v.mp4" [] 3).effects,
      isNetworkEffect e = false) ∧
    (imageTab { baseMediaEnv with user_query := "" } "/tmp/v.mp4" [] 3).effects =
      [Effect.warning "Please enter a question or insight to analyze the image."] ∧
    (∀ e ∈ (imageTab { baseMediaEnv with user_query := "" } "/tmp/v.mp4" [] 3).effects,
      isNetworkEffect e = false) :=
  C2_empty_query_warns_no_network { baseMediaEnv with user_query := "" }
    "/tmp/v.mp4" [] 3 rfl rfl rfl

/-- C10: the uploaded text file's bytes are decoded strictly as UTF-8 at
render time, outside the Summarize button's try/except (the hypotheses do
not even mention the button state); for the non-UTF-8 byte `0xff` the
decode raises, the whole script run ends in that exception, and no handler
output (in particular no inline error message) is produced. -/
theorem C10_render_decode_outside_handler (env : TextEnv)
    (hfile : env.text_file = some [255]) :
    utf8Decode [255] = Except.error "UnicodeDecodeError" ∧
    textTab env = Except.error "UnicodeDecodeError" ∧
    ∀ out, textTab env ≠ Except.ok out := by
  have h2 : textTab env = Except.error "UnicodeDecodeError" := by
    simp only [textTab, hfile]
    rfl
  exact ⟨rfl, h2, fun out hout => by rw [h2] at hout; exact Except.noConfusion hout⟩

/-- Witness for C10 at a concrete environment holding the byte `0xff`. -/
theorem C10_witness :
    utf8Decode [255] = Except.error "UnicodeDecodeError" ∧
    textTab { baseTextEnv with text_file := some [255] } =
      Except.error "UnicodeDecodeError" ∧
    ∀ out, textTab { baseTextEnv with text_file := some [255] } ≠ Except.ok out :=
  C10_render_decode_outside_handler { baseTextEnv with text_file := some [255] } rfl

/-- C8 counterexample: uploading a text file whose bytes are not valid
UTF-8 makes the page script itself raise during rendering — the failure is
not caught at the point of the user-facing action and is not converted to
an inline message, contradicting the claim that no exception escapes. -/
theorem C8_counterexample :
    textTab { text_input := "typed text", text_file := some [255],
              summary_prompt_input := "", buttonPressed := true,
              agentRun := fun _ => Except.ok "summary text" } =
      Except.error "UnicodeDecodeError" := rfl

/-- C8 amended: every failure raised inside the button handlers is caught
there and converted to an inline message (shown for the summarization
handler's model call and the media handler's staging call), and the text
tab only completes normally when the uploaded file decodes; but the UTF-8
decode of an uploaded text file runs at render time outside any
try/except, so a decode failure escapes uncaught. -/
theorem C8_amended_handler_failures_caught (env : TextEnv) (menv : MediaEnv)
    (p : String) (fs0 : List String) (fuel : Nat) (s e : String) (bs : List Nat) :
    (env.text_file = none → textTab env = Except.ok (textTabBody env.text_input env)) ∧
    (env.text_file = some bs → utf8Decode bs = Except.ok s →
      textTab env = Except.ok (textTabBody s env)) ∧
    (env.text_file = some bs → utf8Decode bs = Except.error e →
      textTab env = Except.error e) ∧
    (env.buttonPressed = true → pyStrip s ≠ "" →
      env.agentRun (summary_prompt env.summary_prompt_input s) = Except.error e →
      (textTabBody s env).effects =
        [Effect.runCall (summary_prompt env.summary_prompt_input s),
         Effect.errorMsg ("An error occurred during summarization: " ++ e)]) ∧
    (menv.mediaFile.isSome = true → menv.buttonPressed = true → menv.user_query ≠ "" →
      menv.upload_file = Except.error e →
      (videoTab menv p fs0 fuel).effects =
        [Effect.uploadFileCall p,
         Effect.errorMsg ("An error occurred during analysis: " ++ e),
         Effect.unlink p]) := by
  refine ⟨?_, ?_, ?_, ?_, ?_⟩
  · intro hnone
    simp only [textTab, hnone]
  · intro hsome hdec
    simp only [textTab, hsome, hdec]
  · intro hsome hdec
    simp only [textTab, hsome, hdec]
  · intro hbtn hs hrun
    simp [textTabBody, hbtn, hs, hrun]
  · intro hfile hbtn hq hup
    obtain ⟨mbs, hmbs⟩ := Option.isSome_iff_exists.mp hfile
    simp [videoTab, hmbs, hbtn, hq, hup]

/-- Witness for C8 amended: the escape case and a caught case at concrete
environments. -/
theorem C8_amended_witness :
    textTab { baseTextEnv with text_file := some [255] } =
      Except.error "UnicodeDecodeError" ∧
    (videoTab { baseMediaEnv with upload_file := Except.error "auth failed" }
        "/tmp/v.mp4" [] 3).effects =
      [Effect.uploadFileCall "/tmp/v.mp4",
       Effect.errorMsg ("An error occurred during analysis: " ++ "auth failed"),
       Effect.unlink "/tmp/v.mp4"] :=
  ⟨(C8_amended_handler_failures_caught { baseTextEnv with text_file := some [255] }
      baseMediaEnv "/tmp/v.mp4" [] 3 "s" "UnicodeDecodeError" [255]).2.2.1 rfl rfl,
   (C8_amended_handler_failures_caught baseTextEnv
      { baseMediaEnv with upload_file := Except.error "auth failed" }
      "/tmp/v.mp4" [] 3 "s" "auth failed" [255]).2.2.2.2 rfl rfl
      (by intro hcon; exact absurd hcon (by decide)) rfl⟩

/-- C1 counterexample: with a video uploaded (so the scratch file was
written at render time) and an empty query, pressing Analyze takes the
validation-failure exit: the handler completes with a warning, yet the
scratch file still exists on disk and no unlink was performed — the
`finally` cleanup belongs to the non-empty-query branch only. -/
theorem C1_counterexample :
    (videoTab { baseMediaEnv with user_query := "" } "/tmp/v.mp4" [] 3).completed = true ∧
    "/tmp/v.mp4" ∈ (videoTab { baseMediaEnv with user_query := "" } "/tmp/v.mp4" [] 3).fs ∧
    Effect.unlink "/tmp/v.mp4" ∉
      (videoTab { baseMediaEnv with user_query := "" } "/tmp/v.mp4" [] 3).effects := by
  decide

/-- C1 amended: on every completed run of the try/except/finally (file
uploaded, button pressed, non-empty query), the single scratch file
created for the request is deleted before the handler returns — the final
filesystem equals the initial one — on success, staging error, polling
error and model error alike; but on the validation-failure exit (empty
query) no cleanup runs and the scratch file remains on disk. -/
theorem C1_amended_scratch_cleanup (env : MediaEnv) (p : String) (fs0 : List String)
    (fuel : Nat) (hfile : env.mediaFile.isSome = true) (hbtn : env.buttonPressed = true)
    (hq : env.user_query ≠ "") :
    ((videoTab env p fs0 fuel).completed = true →
      (videoTab env p fs0 fuel).fs = fs0 ∧
      Effect.unlink p ∈ (videoTab env p fs0 fuel).effects) ∧
    ((imageTab env p fs0 fuel).completed = true →
      (imageTab env p fs0 fuel).fs = fs0 ∧
      Effect.unlink p ∈ (imageTab env p fs0 fuel).effects) := by
  obtain ⟨bs, hbs⟩ := Option.isSome_iff_exists.mp hfile
  have herase : unlinkMissingOk (p :: fs0) p = fs0 := List.erase_cons_head p fs0
  constructor
  · intro hdone
    rcases hu : env.upload_file with e | h
    · simp [videoTab, hbs, hbtn, hq, hu, herase]
    · rcases hpoll : pollLoop env.get_file fuel 0 h with ⟨pe, r⟩
      rcases r with _ | r2
      · simp [videoTab, hbs, hbtn, hq, hu, hpoll] at hdone
      · rcases r2 with e | h2
        · simp [videoTab, hbs, hbtn, hq, hu, hpoll, herase]
        · rcases hrun : env.agentRun (analysis_prompt_video env.user_query) h2 with e | c
          · simp [videoTab, hbs, hbtn, hq, hu, hpoll, hrun, herase]
          · simp [videoTab, hbs, hbtn, hq, hu, hpoll, hrun, herase]
  · intro hdone
    rcases hu : env.upload_file with e | h
    · simp [imageTab, hbs, hbtn, hq, hu, herase]
    · rcases hpoll : pollLoop env.get_file fuel 0 h with ⟨pe, r⟩
      rcases r with _ | r2
      · simp [imageTab, hbs, hbtn, hq, hu, hpoll] at hdone
      · rcases r2 with e | h2
        · simp [imageTab, hbs, hbtn, hq, hu, hpoll, herase]
        · rcases hrun : env.agentRun (analysis_prompt_image env.user_query) h2 with e | c
          · simp [imageTab, hbs, hbtn, hq, hu, hpoll, hrun, herase]
          · simp [imageTab, hbs, hbtn, hq, hu, hpoll, hrun, herase]

/-- Witness for C1 amended at a concrete successful request. -/
theorem C1_amended_witness :
    (videoTab baseMediaEnv "/tmp/v.mp4" [] 3).fs = [] ∧
    Effect.unlink "/tmp/v.mp4" ∈ (videoTab baseMediaEnv "/tmp/v.mp4" [] 3).effects ∧
    (imageTab baseMediaEnv "/tmp/v.mp4" [] 3).fs = [] ∧
    Effect.unlink "/tmp/v.mp4" ∈ (imageTab baseMediaEnv "/tmp/v.mp4" [] 3).effects := by
  have h := C1_amended_scratch_cleanup baseMediaEnv "/tmp/v.mp4" [] 3 rfl rfl (by decide)
  exact ⟨(h.1 (by decide)).1, (h.1 (by decide)).2, (h.2 (by decide)).1, (h.2 (by decide)).2⟩

/-- C4 counterexample: the summarization prompt does not contain a
whitespace-only custom-instruction string literally — a single tab
character is dropped by the `strip()` truthiness test and replaced by the
empty string, and no tab occurs anywhere in the prompt. -/
theorem C4_counterexample :
    ¬ ∃ a b : String, summary_prompt "\t" "x" = a ++ "\t" ++ b := by
  rintro ⟨a, b, hab⟩
  have hmem : '\t' ∈ (summary_prompt "\t" "x").data := by
    rw [hab, String.data_append, String.data_append]
    exact List.mem_append.mpr (Or.inl (List.mem_append.mpr (Or.inr (by decide))))
  exact absurd hmem (by decide)

/-- C4 amended: prompt assembly is a pure (hence deterministic) function
of its inputs; the generated prompt contains the user query (video and
image prompts) and the text body (summary prompt) literally and
unmodified, and it contains the custom instructions literally whenever
they are non-blank after trimming — blank instructions are replaced by the
empty string. -/
theorem C4_amended_prompt_containment (q instr txt : String) :
    (∃ a b, analysis_prompt_video q = a ++ q ++ b) ∧
    (∃ a b, analysis_prompt_image q = a ++ q ++ b) ∧
    (∃ a b, summary_prompt instr txt = a ++ txt ++ b) ∧
    (pyStrip instr ≠ "" → ∃ a b, summary_prompt instr txt = a ++ instr ++ b) := by
  refine ⟨⟨videoPromptPre, mediaPromptPost, rfl⟩, ⟨imagePromptPre, mediaPromptPost, rfl⟩,
    ⟨summaryPromptPre ++ (if pyStrip instr = "" then "" else instr) ++ summaryPromptMid,
     summaryPromptPost, ?_⟩, ?_⟩
  · simp [summary_prompt, String.append_assoc]
  · intro hi
    refine ⟨summaryPromptPre, summaryPromptMid ++ txt ++ summaryPromptPost, ?_⟩
    rw [summary_prompt, if_neg hi]
    simp [String.append_assoc]

/-- Witness for C4 amended: non-blank custom instructions appear literally
in the concrete summarization prompt. -/
theorem C4_amended_witness :
    ∃ a b, summary_prompt "Use bullet points" "Some body text" =
      a ++ "Use bullet points" ++ b :=
  (C4_amended_prompt_containment "What is shown?" "Use bullet points" "Some body text").2.2.2
    (by decide)

/-- C3: the polling loop sleeps a fixed interval of 1 time unit before
each re-fetch (every recorded sleep is 1 and sleeps pair one-to-one with
fetches), re-fetches exactly while the state equals "PROCESSING"
(terminating with no fetch on a non-processing state), enforces no maximum
retry count or timeout (against a stub that always reports processing the
loop is still running after every bound `n`, having fetched `n` times),
and for the staging stub reporting processing twice then active the video
workflow proceeds to the model call after exactly two polls. -/
theorem C3_polling_loop :
    (∀ (polls : Nat → Except String FileHandle) (fuel i : Nat) (h : FileHandle) (s : Nat),
      Effect.sleep s ∈ (pollLoop polls fuel i h).1 → s = 1) ∧
    (∀ (polls : Nat → Except String FileHandle) (fuel i : Nat) (h : FileHandle),
      countSleep (pollLoop polls fuel i h).1 = countGetFile (pollLoop polls fuel i h).1) ∧
    (∀ (polls : Nat → Except String FileHandle) (fuel i : Nat) (h : FileHandle),
      h.stateName ≠ "PROCESSING" → pollLoop polls fuel i h = ([], some (Except.ok h))) ∧
    (∀ (polls : Nat → Except String FileHandle) (n i : Nat) (h : FileHandle),
      h.stateName = "PROCESSING" → (∀ j, polls j = Except.ok h) →
      (pollLoop polls n i h).2 = none ∧ countGetFile (pollLoop polls n i h).1 = n) ∧
    (videoTab { baseMediaEnv with
                  upload_file := Except.ok stubHandleProcessing,
                  get_file := twoPollStub } "/tmp/v.mp4" [] 10).effects =
      [Effect.uploadFileCall "/tmp/v.mp4",
       Effect.sleep 1, Effect.getFileCall "files/x",
       Effect.sleep 1, Effect.getFileCall "files/x",
       Effect.runCall (analysis_prompt_video "What is shown?"),
       Effect.subheader "Analysis Result",
       Effect.renderMarkdown "A red circle.",
       Effect.unlink "/tmp/v.mp4"] := by
  refine ⟨fun polls fuel i h s hm => pollLoop_sleep_one polls fuel i h s hm,
    fun polls fuel i h => pollLoop_counts polls fuel i h,
    fun polls fuel i h hp => pollLoop_not_processing polls fuel i h hp,
    fun polls n i h hp hall => pollLoop_stuck polls h hp hall n i,
    ?_⟩
  rfl

/-- Witness for C3: a loop against an always-processing stub is still
unfinished after bound 5, having fetched 5 times. -/
theorem C3_witness :
    (pollLoop (fun _ => Except.ok stubHandleProcessing) 5 0 stubHandleProcessing).2 = none ∧
    countGetFile
      (pollLoop (fun _ => Except.ok stubHandleProcessing) 5 0 stubHandleProcessing).1 = 5 :=
  C3_polling_loop.2.2.2.1 (fun _ => Except.ok stubHandleProcessing) 5 0
    stubHandleProcessing rfl (fun _ => rfl)

/-- C5: when an uploaded text file is present, its decoded content takes
precedence over the typed text — the run is unchanged under any typed
text — and the request proceeds only if the resolved content is non-blank
after trimming: blank content yields the warning and no model call, while
non-blank content reaches the model with the resolved content in the
prompt. -/
theorem C5_file_precedence_and_blank_gate (env : TextEnv) (bs : List Nat) (s : String)
    (hfile : env.text_file = some bs) (hdec : utf8Decode bs = Except.ok s)
    (hbtn : env.buttonPressed = true) :
    textTab env = Except.ok (textTabBody s env) ∧
    (∀ t, textTab { env with text_input := t } = textTab env) ∧
    (pyStrip s = "" →
      textTab env = Except.ok
        { effects := [Effect.warning "Please provide some text or upload a file to summarize."] } ∧
      ∀ pr, Effect.runCall pr ∉ (textTabBody s env).effects) ∧
    (pyStrip s ≠ "" →
      Effect.runCall (summary_prompt env.summary_prompt_input s) ∈
        (textTabBody s env).effects) := by
  have h1 : textTab env = Except.ok (textTabBody s env) := by
    simp only [textTab, hfile, hdec]
  refine ⟨h1, ?_, ?_, ?_⟩
  · intro t
    rw [h1]
    simp only [textTab, hfile, hdec]
    rfl
  · intro hs
    constructor
    · rw [h1]
      simp [textTabBody, hbtn, hs]
    · intro pr
      simp [textTabBody, hbtn, hs]
  · intro hs
    rcases hr : env.agentRun (summary_prompt env.summary_prompt_input s) with e | c <;>
      simp [textTabBody, hbtn, hs, hr]

/-- Witness for C5 with the two-byte file "hi" and non-matching typed text. -/
theorem C5_witness :
    textTab { baseTextEnv with text_file := some [104, 105] } =
      Except.ok (textTabBody "hi" { baseTextEnv with text_file := some [104, 105] }) ∧
    Effect.runCall (summary_prompt "" "hi") ∈
      (textTabBody "hi" { baseTextEnv with text_file := some [104, 105] }).effects := by
  have h := C5_file_precedence_and_blank_gate
    { baseTextEnv with text_file := some [104, 105] } [104, 105] "hi" rfl rfl rfl
  exact ⟨h.1, h.2.2.2 (by decide)⟩

/-- C7: the workflow proceeds past the polling loop only once the handle
state is terminal (no longer "PROCESSING"), and a handle that reaches
"FAILED" receives no special treatment: the handler proceeds to the model
call with the failed handle, and a raised error there takes exactly the
generic error path — inline message and scratch-file cleanup. -/
theorem C7_terminal_state_failed_generic (env : MediaEnv) (p : String) (fs0 : List String)
    (fuel : Nat) (bs : List Nat) (h h' : FileHandle) (pe : List Effect) (e : String) :
    ((pollLoop env.get_file fuel 0 h).2 = some (Except.ok h') →
      h'.stateName ≠ "PROCESSING") ∧
    (env.mediaFile = some bs → env.buttonPressed = true → env.user_query ≠ "" →
      env.upload_file = Except.ok h →
      pollLoop env.get_file fuel 0 h = (pe, some (Except.ok h')) →
      h'.stateName = "FAILED" →
      env.agentRun (analysis_prompt_video env.user_query) h' = Except.error e →
      (videoTab env p fs0 fuel).effects = Effect.uploadFileCall p :: pe ++
        [Effect.runCall (analysis_prompt_video env.user_query),
         Effect.errorMsg ("An error occurred during analysis: " ++ e),
         Effect.unlink p] ∧
      (videoTab env p fs0 fuel).fs = fs0) := by
  constructor
  · exact fun hres => pollLoop_ok_terminal env.get_file fuel 0 h h' hres
  · intro hbs hbtn hq hu hpoll hfailed hrun
    constructor <;>
      simp [videoTab, hbs, hbtn, hq, hu, hpoll, hrun, unlinkMissingOk, List.erase_cons_head]

/-- Witness for C7: a handle that polls to "FAILED" flows into the generic
error path of the video handler. -/
theorem C7_witness :
    (videoTab failedPollEnv "/tmp/v.mp4" [] 3).effects =
      Effect.uploadFileCall "/tmp/v.mp4" ::
        [Effect.sleep 1, Effect.getFileCall "files/x"] ++
        [Effect.runCall (analysis_prompt_video "What is shown?"),
         Effect.errorMsg ("An error occurred during analysis: " ++ "file failed"),
         Effect.unlink "/tmp/v.mp4"] ∧
    (videoTab failedPollEnv "/tmp/v.mp4" [] 3).fs = [] :=
  (C7_terminal_state_failed_generic failedPollEnv
    "/tmp/v.mp4" [] 3 [0] stubHandleProcessing stubHandleFailed
    [Effect.sleep 1, Effect.getFileCall "files/x"] "file failed").2
    rfl rfl (by decide) rfl rfl rfl rfl

/-- C6: if an exception is raised during staging, polling, or the model
call of a video/image request, the error message is surfaced inline as
"An error occurred during analysis: ..." and the scratch file is still
deleted; the deletion tolerates an already-missing file — unlinking an
absent path is a no-op. -/
theorem C6_exception_surfaced_cleanup (env : MediaEnv) (p : String) (fs0 : List String)
    (fuel : Nat) (hfile : env.mediaFile.isSome = true) (hbtn : env.buttonPressed = true)
    (hq : env.user_query ≠ "") :
    (∀ e, env.upload_file = Except.error e →
      Effect.errorMsg ("An error occurred during analysis: " ++ e) ∈
        (videoTab env p fs0 fuel).effects ∧
      Effect.unlink p ∈ (videoTab env p fs0 fuel).effects ∧
      (videoTab env p fs0 fuel).fs = fs0 ∧
      Effect.errorMsg ("An error occurred during analysis: " ++ e) ∈
        (imageTab env p fs0 fuel).effects ∧
      Effect.unlink p ∈ (imageTab env p fs0 fuel).effects ∧
      (imageTab env p fs0 fuel).fs = fs0) ∧
    (∀ (h : FileHandle) (pe : List Effect) (e : String), env.upload_file = Except.ok h →
      pollLoop env.get_file fuel 0 h = (pe, some (Except.error e)) →
      Effect.errorMsg ("An error occurred during analysis: " ++ e) ∈
        (videoTab env p fs0 fuel).effects ∧
      Effect.unlink p ∈ (videoTab env p fs0 fuel).effects ∧
      (videoTab env p fs0 fuel).fs = fs0 ∧
      Effect.errorMsg ("An error occurred during analysis: " ++ e) ∈
        (imageTab env p fs0 fuel).effects ∧
      Effect.unlink p ∈ (imageTab env p fs0 fuel).effects ∧
      (imageTab env p fs0 fuel).fs = fs0) ∧
    (∀ (h : FileHandle) (pe : List Effect) (h' : FileHandle) (e : String),
      env.upload_file = Except.ok h →
      pollLoop env.get_file fuel 0 h = (pe, some (Except.ok h')) →
      env.agentRun (analysis_prompt_video env.user_query) h' = Except.error e →
      Effect.errorMsg ("An error occurred during analysis: " ++ e) ∈
        (videoTab env p fs0 fuel).effects ∧
      Effect.unlink p ∈ (videoTab env p fs0 fuel).effects ∧
      (videoTab env p fs0 fuel).fs = fs0) ∧
    (∀ (h : FileHandle) (pe : List Effect) (h' : FileHandle) (e : String),
      env.upload_file = Except.ok h →
      pollLoop env.get_file fuel 0 h = (pe, some (Except.ok h')) →
      env.agentRun (analysis_prompt_image env.user_query) h' = Except.error e →
      Effect.errorMsg ("An error occurred during analysis: " ++ e) ∈
        (imageTab env p fs0 fuel).effects ∧
      Effect.unlink p ∈ (imageTab env p fs0 fuel).effects ∧
      (imageTab env p fs0 fuel).fs = fs0) ∧
    (∀ fs : List String, p ∉ fs → unlinkMissingOk fs p = fs) := by
  obtain ⟨bs, hbs⟩ := Option.isSome_iff_exists.mp hfile
  have herase : unlinkMissingOk (p :: fs0) p = fs0 := List.erase_cons_head p fs0
  refine ⟨?_, ?_, ?_, ?_, fun fs hpf => List.erase_of_not_mem hpf⟩
  · intro e hu
    refine ⟨?_, ?_, ?_, ?_, ?_, ?_⟩ <;>
      simp [videoTab, imageTab, hbs, hbtn, hq, hu, herase]
  · intro h pe e hu hpoll
    refine ⟨?_, ?_, ?_, ?_, ?_, ?_⟩ <;>
      simp [videoTab, imageTab, hbs, hbtn, hq, hu, hpoll, herase]
  · intro h pe h' e hu hpoll hrun
    refine ⟨?_, ?_, ?_⟩ <;>
      simp [videoTab, hbs, hbtn, hq, hu, hpoll, hrun, herase]
  · intro h pe h' e hu hpoll hrun
    refine ⟨?_, ?_, ?_⟩ <;>
      simp [imageTab, hbs, hbtn, hq, hu, hpoll, hrun, herase]

/-- Witness for C6 at a staging call that raises. -/
theorem C6_witness :
    Effect.errorMsg ("An error occurred during analysis: " ++ "boom") ∈
      (videoTab { baseMediaEnv with upload_file := Except.error "boom" }
        "/tmp/v.mp4" [] 3).effects ∧
    Effect.unlink "/tmp/v.mp4" ∈
      (videoTab { baseMediaEnv with upload_file := Except.error "boom" }
        "/tmp/v.mp4" [] 3).effects ∧
    (videoTab { baseMediaEnv with upload_file := Except.error "boom" }
      "/tmp/v.mp4" [] 3).fs = [] ∧
    unlinkMissingOk ["/tmp/other.png"] "/tmp/v.mp4" = ["/tmp/other.png"] := by
  have h := C6_exception_surfaced_cleanup
    { baseMediaEnv with upload_file := Except.error "boom" } "/tmp/v.mp4" [] 3
    rfl rfl (by decide)
  have h1 := h.1 "boom" rfl
  exact ⟨h1.1, h1.2.1, h1.2.2.1, h.2.2.2.2 ["/tmp/other.png"] (by decide)⟩

/-- C9: a query that is non-empty but consists only of whitespace passes
the video/image emptiness check (the code tests string falsiness without
trimming): no warning is shown, the staging service is called, and — once
staging yields a terminal handle — the model is called with the
whitespace query in the prompt; the text tab instead trims first and warns
on the same whitespace-only input without calling the model. -/
theorem C9_whitespace_query_accepted (q : String) (env : MediaEnv) (tenv : TextEnv)
    (p : String) (fs0 : List String) (fuel : Nat)
    (hne : q ≠ "") (hws : q.data.all pyIsSpace = true)
    (hq : env.user_query = q) (hfile : env.mediaFile.isSome = true)
    (hbtn : env.buttonPressed = true)
    (htb : tenv.buttonPressed = true) (htf : tenv.text_file = none)
    (hti : tenv.text_input = q) :
    (∀ m, Effect.warning m ∉ (videoTab env p fs0 fuel).effects) ∧
    Effect.uploadFileCall p ∈ (videoTab env p fs0 fuel).effects ∧
    (∀ m, Effect.warning m ∉ (imageTab env p fs0 fuel).effects) ∧
    Effect.uploadFileCall p ∈ (imageTab env p fs0 fuel).effects ∧
    (∀ h : FileHandle, env.upload_file = Except.ok h → h.stateName ≠ "PROCESSING" →
      Effect.runCall (analysis_prompt_video q) ∈ (videoTab env p fs0 fuel).effects) ∧
    textTab tenv = Except.ok
      { effects := [Effect.warning "Please provide some text or upload a file to summarize."] } := by
  subst hq
  obtain ⟨bs, hbs⟩ := Option.isSome_iff_exists.mp hfile
  refine ⟨?_, ?_, ?_, ?_, ?_, ?_⟩
  · intro m
    rcases hu : env.upload_file with e | h
    · simp [videoTab, hbs, hbtn, hne, hu]
    · rcases hpoll : pollLoop env.get_file fuel 0 h with ⟨pe, r⟩
      have hw := pollLoop_no_warning env.get_file fuel 0 h m
      rw [hpoll] at hw
      rcases r with _ | r2
      · simp [videoTab, hbs, hbtn, hne, hu, hpoll]
        exact hw
      · rcases r2 with e | h2
        · simp [videoTab, hbs, hbtn, hne, hu, hpoll]
          exact hw
        · rcases hrun : env.agentRun (analysis_prompt_video env.user_query) h2 with e | c <;>
            simp [videoTab, hbs, hbtn, hne, hu, hpoll, hrun] <;> exact hw
  · rcases hu : env.upload_file with e | h
    · simp [videoTab, hbs, hbtn, hne, hu]
    · rcases hpoll : pollLoop env.get_file fuel 0 h with ⟨pe, r⟩
      rcases r with _ | r2
      · simp [videoTab, hbs, hbtn, hne, hu, hpoll]
      · rcases r2 with e | h2
        · simp [videoTab, hbs, hbtn, hne, hu, hpoll]
        · rcases hrun : env.agentRun (analysis_prompt_video env.user_query) h2 with e | c <;>
            simp [videoTab, hbs, hbtn, hne, hu, hpoll, hrun]
  · intro m
    rcases hu : env.upload_file with e | h
    · simp [imageTab, hbs, hbtn, hne, hu]
    · rcases hpoll : pollLoop env.get_file fuel 0 h with ⟨pe, r⟩
      have hw := pollLoop_no_warning env.get_file fuel 0 h m
      rw [hpoll] at hw
      rcases r with _ | r2
      · simp [imageTab, hbs, hbtn, hne, hu, hpoll]
        exact hw
      · rcases r2 with e | h2
        · simp [imageTab, hbs, hbtn, hne, hu, hpoll]
          exact hw
        · rcases hrun : env.agentRun (analysis_prompt_image env.user_query) h2 with e | c <;>
            simp [imageTab, hbs, hbtn, hne, hu, hpoll, hrun] <;> exact hw
  · rcases hu : env.upload_file with e | h
    · simp [imageTab, hbs, hbtn, hne, hu]
    · rcases hpoll : pollLoop env.get_file fuel 0 h with ⟨pe, r⟩
      rcases r with _ | r2
      · simp [imageTab, hbs, hbtn, hne, hu, hpoll]
      · rcases r2 with e | h2
        · simp [imageTab, hbs, hbtn, hne, hu, hpoll]
        · rcases hrun : env.agentRun (analysis_prompt_image env.user_query) h2 with e | c <;>
            simp [imageTab, hbs, hbtn, hne, hu, hpoll, hrun]
  · intro h hu hterm
    have hpl := pollLoop_not_processing env.get_file fuel 0 h hterm
    rcases hrun : env.agentRun (analysis_prompt_video env.user_query) h with e | c <;>
      simp [videoTab, hbs, hbtn, hne, hu, hpl, hrun]
  · have hstrip : pyStrip env.user_query = "" :=
      pyStrip_eq_empty_of_all_space env.user_query hws
    simp only [textTab, htf]
    simp [textTabBody, htb, hti, hstrip]

/-- Witness for C9 at the one-space query. -/
theorem C9_witness :
    Effect.uploadFileCall "/tmp/v.mp4" ∈
      (videoTab { baseMediaEnv with user_query := " " } "/tmp/v.mp4" [] 3).effects ∧
    Effect.runCall (analysis_prompt_video " ") ∈
      (videoTab { baseMediaEnv with user_query := " " } "/tmp/v.mp4" [] 3).effects ∧
    textTab { baseTextEnv with text_input := " " } = Except.ok
      { effects := [Effect.warning "Please provide some text or upload a file to summarize."] } := by
  have h := C9_whitespace_query_accepted " " { baseMediaEnv with user_query := " " }
    { baseTextEnv with text_input := " " } "/tmp/v.mp4" [] 3
    (by decide) (by decide) rfl rfl rfl rfl rfl rfl
  exact ⟨h.2.1, h.2.2.2.2.1 stubHandleActive rfl (by decide), h.2.2.2.2.2⟩

end Vision
